import Mathlib

/-!
Shallow embedding of `mogwai/migrations/migrations/actions.py`: the schema-diff
action classes (`AddModel`, `DeleteModel`, `AddField`, `DeleteField`,
`ChangeField`, `AddUnique`, `DeleteUnique`, `AddIndex`, `DeleteIndex`,
`UpdateIndex`), their forward/backward code generation, the
`add_forwards` / `add_backwards` serialization into operation lists, and the
interactive resolution of not-null-without-default conflicts
(`deal_with_not_null_no_default`, `add_one_time_default`).

Interactive input (`raw_input`) is modelled as a list of stdin lines threaded
through the dialog functions; `eval` of user code is modelled by an oracle
`evalRaises : String → Bool` telling whether evaluation raises a
`SyntaxError`/`NameError`. `sys.exit(1)` and `MogwaiMigrationException` become
explicit outcome constructors.
-/

namespace Mogwai

/-- Python `repr` of a string, for strings without quote or escape characters
(all the template substitutions are such strings). -/
def pyReprStr (s : String) : String := "'" ++ s ++ "'"

/-- Python `repr` (equally `str`) of a list of strings, e.g. `['a', 'b']`. -/
def pyReprStrList (xs : List String) : String :=
  "[" ++ String.intercalate ", " (xs.map pyReprStr) ++ "]"

/-- Which base the model class derives from: `issubclass(model, Vertex)` is
checked first, then `issubclass(model, Edge)`, else neither. -/
inductive ModelKind
  | vertex
  | edge
  | other
deriving DecidableEq, Repr

/-- A model class: its `__name__`, its base, and the values the constructors
read from it via `get_element_type()` and `get_label()`. -/
structure Model where
  name : String
  kind : ModelKind
  element_type : String
  label : String
deriving DecidableEq, Repr

/-- The attributes every action constructor derives from its `model` argument
(plus the `app_name` it stores alongside them). -/
structure ModelInfo where
  app_name : String
  model_class_name : String
  model_type : String
  model_name : String
deriving DecidableEq, Repr

/-- The constructor snippet shared by every action class: a `Vertex` subclass
gives `model_type = 'vertex'` and `model_name = get_element_type()`, an `Edge`
subclass gives `model_type = 'edge'` and `model_name = get_label()`, anything
else raises `MogwaiMigrationException`. -/
def mkModelInfo (app_name : String) (m : Model) : Except String ModelInfo :=
  match m.kind with
  | .vertex => .ok ⟨app_name, m.name, "vertex", m.element_type⟩
  | .edge => .ok ⟨app_name, m.name, "edge", m.label⟩
  | .other => .error (m.name ++ " is Not a Vertex or Edge")

/-- A property (field) instance: its `name` and `column`, the `required` flag,
the optional `default`, whether it is an instance of `String`/`Text` from
`mogwai.properties`, and its `blank` flag. -/
structure Field where
  name : String
  column : String
  required : Bool
  default : Option String
  isStringOrText : Bool
  blank : Bool
deriving DecidableEq, Repr

/-- A field-definition triple; `field_def[2]` is the kwargs dict, modelled as
an association list in insertion order. -/
structure FieldDef where
  fname : String
  ftype : String
  kwargs : List (String × String)
deriving DecidableEq, Repr

/-- Python dict assignment `d[k] = v`: replace the value if the key is bound,
otherwise append the binding. -/
def setKwarg : List (String × String) → String → String → List (String × String)
  | [], k, v => [(k, v)]
  | kv :: rest, k, v =>
    if kv.1 = k then (k, v) :: rest else kv :: setKwarg rest k v

/-- The assignment `field_def[2]['default'] = repr("")` performed for blank
`String`/`Text` fields. -/
def FieldDef.setDefaultEmpty (fd : FieldDef) : FieldDef :=
  { fd with kwargs := setKwarg fd.kwargs "default" (pyReprStr "") }

/-- How the `while True` choice loop of `deal_with_not_null_no_default` ends:
choice `"1"` runs `sys.exit(1)` inside the loop; `"2"` (always) and `"3"`
(only when `issue_with_backward_migration`) break out carrying the choice. -/
inductive LoopResult
  | exit1
  | broke (choice : String)
deriving DecidableEq, Repr

/-- The choice loop, reading stdin lines until one is accepted; any other line
prints `! Invalid choice.` and reads again. `none` means stdin ran dry (the
real loop would keep prompting forever). Returns the unread rest of stdin. -/
def choiceLoop (issue : Bool) : List String → Option (LoopResult × List String)
  | [] => none
  | c :: rest =>
    if c = "1" then some (.exit1, rest)
    else if c = "2" then some (.broke c, rest)
    else if c = "3" && issue then some (.broke c, rest)
    else choiceLoop issue rest

/-- How the input loop of `add_one_time_default` ends: `exit` runs
`sys.exit(1)`; a non-empty line whose `eval` succeeds breaks out. -/
inductive OneTimeResult
  | exit1
  | done
deriving DecidableEq, Repr

/-- The `raw_input` loop of `add_one_time_default`: an empty line re-prompts,
`exit` exits the process, a line whose `eval` raises `SyntaxError`/`NameError`
prints the error and re-prompts, any other line breaks out of the loop. -/
def oneTimeLoop (evalRaises : String → Bool) : List String → Option (OneTimeResult × List String)
  | [] => none
  | code :: rest =>
    if code = "" then oneTimeLoop evalRaises rest
    else if code = "exit" then some (.exit1, rest)
    else if evalRaises code then oneTimeLoop evalRaises rest
    else some (.done, rest)

/-- Source `add_one_time_default`: runs the input loop; the final write of the
evaluated result into the field definition is commented out in the source
(`#field_def[2]['default'] = value_clean(result)` with a FIXME), so the field
definition is handed back exactly as received. -/
def add_one_time_default (evalRaises : String → Bool) (fd : FieldDef)
    (stdin : List String) : Option (OneTimeResult × FieldDef × List String) :=
  (oneTimeLoop evalRaises stdin).map (fun r => (r.1, fd, r.2))

/-- Outcome of `deal_with_not_null_no_default`: the (possibly updated) field
definition, the value the method leaves in `self.irreversible`, and the unread
rest of stdin; or the process exited via `sys.exit(1)`; or stdin ran dry. -/
inductive DealOutcome
  | ok (fd : FieldDef) (irreversible : Bool) (rest : List String)
  | exited
  | blocked
deriving DecidableEq, Repr

/-- Source `deal_with_not_null_no_default`: a blank `String`/`Text` field gets
`field_def[2]['default'] = repr("")` and the method returns at once; otherwise
the user is prompted through the choice loop, after which choice `"2"` runs
`add_one_time_default` and choice `"3"` performs `self.irreversible = True`. -/
def deal_with_not_null_no_default (evalRaises : String → Bool) (issue : Bool)
    (field : Field) (fd : FieldDef) (stdin : List String) : DealOutcome :=
  if field.isStringOrText && field.blank then
    .ok fd.setDefaultEmpty false stdin
  else
    match choiceLoop issue stdin with
    | none => .blocked
    | some (.exit1, _) => .exited
    | some (.broke choice, rest) =>
      if choice = "2" then
        match add_one_time_default evalRaises fd rest with
        | none => .blocked
        | some (.exit1, _, _) => .exited
        | some (.done, fd2, rest2) => .ok fd2 false rest2
      else if choice = "3" then .ok fd true rest
      else .ok fd false rest

/-- Modelled from the spec: the helper `triple_to_def` used by
`AddField.forwards_code` and `ChangeField._code` is not present under `src/`
(only its call sites are); per the spec it renders a field-definition triple
as the code fragment spliced into the generated migration script. -/
def triple_to_def (t : FieldDef) : String :=
  t.ftype ++ "(" ++ String.intercalate ", " (t.kwargs.map (fun kv => kv.1 ++ "=" ++ kv.2)) ++ ")"

/-- Modelled from the spec: the helper `triples_to_defs` used by
`AddModel.forwards_code` is not present under `src/`; it maps each entry of
the model definition through `triple_to_def`, keeping the dict's insertion
order (`.items()`). -/
def triples_to_defs (md : List (String × FieldDef)) : List (String × String) :=
  md.map (fun p => (p.1, triple_to_def p.2))

/-- State an `AddModel` (and, by inheritance, `DeleteModel`) instance holds
after construction. -/
structure AddModelState where
  info : ModelInfo
  model_def : List (String × FieldDef)
deriving DecidableEq, Repr

/-- State an `AddField` (and, by inheritance, `DeleteField`) instance holds
after construction; `irreversible` comes from `_NullIssuesField` (class
default `False`, possibly set by the constructor's dialog). -/
structure AddFieldState where
  info : ModelInfo
  field : Field
  field_def : FieldDef
  irreversible : Bool
deriving DecidableEq, Repr

/-- State a `ChangeField` instance holds after construction. -/
structure ChangeFieldState where
  info : ModelInfo
  old_field : Field
  new_field : Field
  old_def : FieldDef
  new_def : FieldDef
  irreversible : Bool
deriving DecidableEq, Repr

/-- State an `AddUnique` / `DeleteUnique` / `AddIndex` / `DeleteIndex` /
`UpdateIndex` instance holds after construction. -/
structure FieldsActionState where
  info : ModelInfo
  fields : List Field
deriving DecidableEq, Repr

/-- Source `AddModel.forwards_code`: `FORWARDS_TEMPLATE` (with its leading
newline stripped and a newline appended) filled in, the field definitions
joined with `",\n            "` and a trailing comma. -/
def AddModel.forwards_code (st : AddModelState) : String :=
  let field_defs := String.intercalate ",\n            "
      ((triples_to_defs st.model_def).map
        (fun p => "(" ++ pyReprStr p.1 ++ ", " ++ p.2 ++ ")")) ++ ","
  "        # Adding " ++ st.info.model_type ++ " '" ++ st.info.model_class_name ++ "'\n" ++
  "        db.create_" ++ st.info.model_type ++ "(" ++ pyReprStr st.info.model_name ++ ", (\n" ++
  "            " ++ field_defs ++ "\n" ++
  "        ))\n" ++
  "        db.send_create_signal(" ++ st.info.model_type ++ ", " ++
    pyReprStr st.info.app_name ++ ", [" ++ pyReprStr st.info.model_class_name ++ "])\n"

/-- Source `AddModel.backwards_code`: `BACKWARDS_TEMPLATE` filled in. -/
def AddModel.backwards_code (st : AddModelState) : String :=
  "        # Deleting " ++ st.info.model_type ++ " '" ++ st.info.model_class_name ++ "'\n" ++
  "        db.delete_" ++ st.info.model_type ++ "(" ++ pyReprStr st.info.model_name ++ ")\n"

/-- Source `AddModel.console_line`. -/
def AddModel.console_line (st : AddModelState) : String :=
  " + Added model " ++ st.info.app_name ++ "." ++ st.info.model_name

/-- Source `DeleteModel.console_line`. -/
def DeleteModel.console_line (st : AddModelState) : String :=
  " - Deleted model " ++ st.info.app_name ++ "." ++ st.info.model_class_name

/-- Source `DeleteModel.forwards_code`: `return AddModel.backwards_code(self)`. -/
def DeleteModel.forwards_code (st : AddModelState) : String :=
  AddModel.backwards_code st

/-- Source `DeleteModel.backwards_code`: `return AddModel.forwards_code(self)`. -/
def DeleteModel.backwards_code (st : AddModelState) : String :=
  AddModel.forwards_code st

/-- Source `_NullIssuesField.irreversable_code`: `IRREVERSIBLE_TEMPLATE`
(leading newline kept, no trailing newline) filled in. -/
def irreversable_code (info : ModelInfo) (field : Field) : String :=
  "\n        # User chose to not deal with backwards NULL issues for '" ++
    info.model_class_name ++ "." ++ field.name ++ "'\n" ++
  "        raise RuntimeError(\"Cannot reverse this migration. '" ++
    info.model_class_name ++ "." ++ field.name ++
    "' and its values cannot be restored.\")\n" ++
  "\n        # The following code is provided here to aid in writing a correct migration"

/-- Source `AddField.console_line`. -/
def AddField.console_line (st : AddFieldState) : String :=
  " + Added field " ++ st.field.name ++ " on " ++ st.info.app_name ++ "." ++
    st.info.model_class_name

/-- Source `AddField.forwards_code`: `FORWARDS_TEMPLATE` filled in. -/
def AddField.forwards_code (st : AddFieldState) : String :=
  "        # Adding field '" ++ st.info.model_class_name ++ "." ++ st.field.name ++ "'\n" ++
  "        db.add_property(" ++ pyReprStr st.info.model_name ++ ", " ++
    pyReprStr st.field.name ++ ",\n" ++
  "                        " ++ triple_to_def st.field_def ++ ",\n" ++
  "                        keep_default=False)\n"

/-- Source `AddField.backwards_code`: `BACKWARDS_TEMPLATE` filled in. -/
def AddField.backwards_code (st : AddFieldState) : String :=
  "        # Deleting field '" ++ st.info.model_class_name ++ "." ++ st.field.name ++ "'\n" ++
  "        db.delete_property(" ++ pyReprStr st.info.model_name ++ ", " ++
    pyReprStr st.field.column ++ ")\n"

/-- Source `DeleteField.console_line`. -/
def DeleteField.console_line (st : AddFieldState) : String :=
  " - Deleted field " ++ st.field.name ++ " on " ++ st.info.app_name ++ "." ++
    st.info.model_class_name

/-- Source `DeleteField.forwards_code`: `return AddField.backwards_code(self)`. -/
def DeleteField.forwards_code (st : AddFieldState) : String :=
  AddField.backwards_code st

/-- Source `DeleteField.backwards_code`: the restore code from
`AddField.forwards_code`, with `irreversable_code` prepended when the
`irreversible` flag is set. -/
def DeleteField.backwards_code (st : AddFieldState) : String :=
  if !st.irreversible then AddField.forwards_code st
  else irreversable_code st.info st.field ++ AddField.forwards_code st

/-- Source `ChangeField.console_line`. -/
def ChangeField.console_line (st : ChangeFieldState) : String :=
  " ~ Changed field " ++ st.new_field.name ++ " on " ++ st.info.app_name ++ "." ++
    st.info.model_class_name

/-- The `RENAME_TEMPLATE` fragment of `ChangeField._code` (leading newline
kept, no trailing newline). -/
def ChangeField.rename_code (st : ChangeFieldState) (old_field new_field : Field) : String :=
  "\n        # Renaming property for '" ++ st.info.model_class_name ++ "." ++
    new_field.name ++ "' to match new field type.\n" ++
  "        db.rename_property(" ++ pyReprStr st.info.model_name ++ ", " ++
    pyReprStr old_field.column ++ ", " ++ pyReprStr new_field.column ++ ")"

/-- The `FORWARDS_TEMPLATE = BACKWARDS_TEMPLATE` fragment of
`ChangeField._code` (leading newline kept, no trailing newline). -/
def ChangeField.alter_code (st : ChangeFieldState) (new_field : Field) (new_def : FieldDef) :
    String :=
  "\n        # Changing field '" ++ st.info.model_class_name ++ "." ++
    new_field.name ++ "'\n" ++
  "        db.alter_property(" ++ pyReprStr st.info.model_name ++ ", " ++
    pyReprStr new_field.column ++ ", " ++ triple_to_def new_def ++ ")"

/-- Source `ChangeField._code`: the rename fragment when
`self.old_field.column != self.new_field.column` (note: the condition reads
the instance attributes, not the parameters), then the alter fragment. -/
def ChangeField._code (st : ChangeFieldState) (old_field new_field : Field)
    (new_def : FieldDef) : String :=
  (if st.old_field.column ≠ st.new_field.column then
    ChangeField.rename_code st old_field new_field
  else "") ++ ChangeField.alter_code st new_field new_def

/-- Source `ChangeField.forwards_code`: `self._code(old_field, new_field, new_def)`. -/
def ChangeField.forwards_code (st : ChangeFieldState) : String :=
  ChangeField._code st st.old_field st.new_field st.new_def

/-- Source `ChangeField.backwards_code`:
`self._code(new_field, old_field, old_def)`, with `irreversable_code` of the
old field prepended when the `irreversible` flag is set. -/
def ChangeField.backwards_code (st : ChangeFieldState) : String :=
  let change_code := ChangeField._code st st.new_field st.old_field st.old_def
  if !st.irreversible then change_code
  else irreversable_code st.info st.old_field ++ change_code

/-- Source `AddUnique.console_line`. -/
def AddUnique.console_line (st : FieldsActionState) : String :=
  " + Added unique constraint for " ++ pyReprStrList (st.fields.map Field.name) ++
    " on " ++ st.info.app_name ++ "." ++ st.info.model_class_name

/-- Source `AddUnique.forwards_code`: `FORWARDS_TEMPLATE` filled in. -/
def AddUnique.forwards_code (st : FieldsActionState) : String :=
  "        # Adding unique constraint on '" ++ st.info.model_class_name ++
    "', fields " ++ pyReprStrList (st.fields.map Field.name) ++ "\n" ++
  "        db.create_unique(" ++ pyReprStr st.info.model_name ++ ", " ++
    pyReprStrList (st.fields.map Field.column) ++ ")\n"

/-- Source `AddUnique.backwards_code`: `BACKWARDS_TEMPLATE` filled in. -/
def AddUnique.backwards_code (st : FieldsActionState) : String :=
  "        # Removing unique constraint on '" ++ st.info.model_class_name ++
    "', fields " ++ pyReprStrList (st.fields.map Field.name) ++ "\n" ++
  "        db.delete_unique(" ++ pyReprStr st.info.model_name ++ ", " ++
    pyReprStrList (st.fields.map Field.column) ++ ")\n"

/-- Source `DeleteUnique.console_line`. -/
def DeleteUnique.console_line (st : FieldsActionState) : String :=
  " - Deleted unique constraint for " ++ pyReprStrList (st.fields.map Field.name) ++
    " on " ++ st.info.app_name ++ "." ++ st.info.model_class_name

/-- Source `DeleteUnique.forwards_code`: `return AddUnique.backwards_code(self)`. -/
def DeleteUnique.forwards_code (st : FieldsActionState) : String :=
  AddUnique.backwards_code st

/-- Source `DeleteUnique.backwards_code`: `return AddUnique.forwards_code(self)`. -/
def DeleteUnique.backwards_code (st : FieldsActionState) : String :=
  AddUnique.forwards_code st

/-- Source `AddIndex.console_line`. -/
def AddIndex.console_line (st : FieldsActionState) : String :=
  " + Added index for " ++ pyReprStrList (st.fields.map Field.name) ++
    " on " ++ st.info.app_name ++ "." ++ st.info.model_class_name

/-- Source `AddIndex.forwards_code`: `FORWARDS_TEMPLATE` filled in. -/
def AddIndex.forwards_code (st : FieldsActionState) : String :=
  "        # Adding index on '" ++ st.info.model_class_name ++
    "', fields " ++ pyReprStrList (st.fields.map Field.name) ++ "\n" ++
  "        db.create_index(" ++ pyReprStr st.info.model_name ++ ", " ++
    pyReprStrList (st.fields.map Field.column) ++ ")\n"

/-- Source `AddIndex.backwards_code`: `BACKWARDS_TEMPLATE` filled in. -/
def AddIndex.backwards_code (st : FieldsActionState) : String :=
  "        # Removing index on '" ++ st.info.model_class_name ++
    "', fields " ++ pyReprStrList (st.fields.map Field.name) ++ "\n" ++
  "        db.delete_index(" ++ pyReprStr st.info.model_name ++ ", " ++
    pyReprStrList (st.fields.map Field.column) ++ ")\n"

/-- Source `DeleteIndex.console_line`. -/
def DeleteIndex.console_line (st : FieldsActionState) : String :=
  " + Deleted index for " ++ pyReprStrList (st.fields.map Field.name) ++
    " on " ++ st.info.app_name ++ "." ++ st.info.model_class_name

/-- Source `DeleteIndex.forwards_code`: `return AddIndex.backwards_code(self)`. -/
def DeleteIndex.forwards_code (st : FieldsActionState) : String :=
  AddIndex.backwards_code st

/-- Source `DeleteIndex.backwards_code`: `return AddIndex.forwards_code(self)`. -/
def DeleteIndex.backwards_code (st : FieldsActionState) : String :=
  AddIndex.forwards_code st

/-- Source `UpdateIndex.console_line`. -/
def UpdateIndex.console_line (st : FieldsActionState) : String :=
  " + Updated index for " ++ pyReprStrList (st.fields.map Field.name) ++
    " on " ++ st.info.app_name ++ "." ++ st.info.model_class_name

/-- Source `UpdateIndex.forwards_code`: `UPDATE_TEMPLATE` filled in. -/
def UpdateIndex.forwards_code (st : FieldsActionState) : String :=
  "        # Updating index on '" ++ st.info.model_class_name ++
    "', fields " ++ pyReprStrList (st.fields.map Field.name) ++ "\n" ++
  "        db.update_index(" ++ pyReprStr st.info.model_name ++ ", " ++
    pyReprStrList (st.fields.map Field.column) ++ ")\n"

/-- Source `UpdateIndex.backwards_code`: `UPDATE_TEMPLATE` filled in with the
same substitutions as the forwards code. -/
def UpdateIndex.backwards_code (st : FieldsActionState) : String :=
  "        # Updating index on '" ++ st.info.model_class_name ++
    "', fields " ++ pyReprStrList (st.fields.map Field.name) ++ "\n" ++
  "        db.update_index(" ++ pyReprStr st.info.model_name ++ ", " ++
    pyReprStrList (st.fields.map Field.column) ++ ")\n"

/-- Outcome of running an action's `__init__`: a `MogwaiMigrationException`,
a `sys.exit(1)` from the dialog, a dialog blocked on dry stdin, or the
constructed instance state. -/
inductive CtorOutcome (α : Type)
  | exc (msg : String)
  | exited
  | blocked
  | ok (st : α)
deriving DecidableEq, Repr

/-- Source `AddModel.__init__` (inherited unchanged by `DeleteModel`). -/
def AddModel.mk (model : Model) (model_def : List (String × FieldDef))
    (app_name : String) : CtorOutcome AddModelState :=
  match mkModelInfo app_name model with
  | .error e => .exc e
  | .ok info => .ok ⟨info, model_def⟩

/-- Source `DeleteModel` constructor: inherited from `AddModel`. -/
def DeleteModel.mk (model : Model) (model_def : List (String × FieldDef))
    (app_name : String) : CtorOutcome AddModelState :=
  AddModel.mk model model_def app_name

/-- Source `AddField.__init__` with the class's
`issue_with_backward_migration` passed in (`False` for `AddField`, `True` for
`DeleteField`): resolves the model, then runs
`deal_with_not_null_no_default` when
`not self.field.required and not (self.field.default is not None)`. -/
def AddField.mkGeneric (issue : Bool) (evalRaises : String → Bool) (model : Model)
    (field : Field) (field_def : FieldDef) (app_name : String) (stdin : List String) :
    CtorOutcome AddFieldState :=
  match mkModelInfo app_name model with
  | .error e => .exc e
  | .ok info =>
    if !field.required && !field.default.isSome then
      match deal_with_not_null_no_default evalRaises issue field field_def stdin with
      | .blocked => .blocked
      | .exited => .exited
      | .ok fd2 irr _ => .ok ⟨info, field, fd2, irr⟩
    else .ok ⟨info, field, field_def, false⟩

/-- Source `AddField` constructor (`issue_with_backward_migration = False`). -/
def AddField.mk (evalRaises : String → Bool) (model : Model) (field : Field)
    (field_def : FieldDef) (app_name : String) (stdin : List String) :
    CtorOutcome AddFieldState :=
  AddField.mkGeneric false evalRaises model field field_def app_name stdin

/-- Source `DeleteField` constructor: inherited from `AddField`, with the
class attribute `issue_with_backward_migration = True`. -/
def DeleteField.mk (evalRaises : String → Bool) (model : Model) (field : Field)
    (field_def : FieldDef) (app_name : String) (stdin : List String) :
    CtorOutcome AddFieldState :=
  AddField.mkGeneric true evalRaises model field field_def app_name stdin

/-- Second conflict check of `ChangeField.__init__`: when
`not old_field.required and new_field.required and not old_default`, it sets
`issue_with_backward_migration = True` and runs the dialog on the old field
and old definition; `irr1` and `nd` carry what the first check left. -/
def ChangeField.mkSecond (evalRaises : String → Bool) (info : ModelInfo)
    (old_field new_field : Field) (old_def nd : FieldDef) (irr1 : Bool)
    (rest : List String) : CtorOutcome ChangeFieldState :=
  if !old_field.required && new_field.required && !old_field.default.isSome then
    match deal_with_not_null_no_default evalRaises true old_field old_def rest with
    | .blocked => .blocked
    | .exited => .exited
    | .ok od irr2 _ => .ok ⟨info, old_field, new_field, od, nd, irr1 || irr2⟩
  else .ok ⟨info, old_field, new_field, old_def, nd, irr1⟩

/-- Source `ChangeField.__init__`: resolves the model, then runs the dialog on
the new field when `old_field.required and not new_field.required and not
new_default` (with `issue_with_backward_migration` still at its class default
`False`), then the second check. -/
def ChangeField.mk (evalRaises : String → Bool) (model : Model)
    (old_field new_field : Field) (old_def new_def : FieldDef) (app_name : String)
    (stdin : List String) : CtorOutcome ChangeFieldState :=
  match mkModelInfo app_name model with
  | .error e => .exc e
  | .ok info =>
    if old_field.required && !new_field.required && !new_field.default.isSome then
      match deal_with_not_null_no_default evalRaises false new_field new_def stdin with
      | .blocked => .blocked
      | .exited => .exited
      | .ok nd irr1 rest =>
        ChangeField.mkSecond evalRaises info old_field new_field old_def nd irr1 rest
    else
      ChangeField.mkSecond evalRaises info old_field new_field old_def new_def false stdin

/-- Source `AddUnique.__init__` (inherited unchanged by `DeleteUnique`). -/
def AddUnique.mk (model : Model) (fields : List Field) (app_name : String) :
    CtorOutcome FieldsActionState :=
  match mkModelInfo app_name model with
  | .error e => .exc e
  | .ok info => .ok ⟨info, fields⟩

/-- Source `DeleteUnique` constructor: inherited from `AddUnique`. -/
def DeleteUnique.mk (model : Model) (fields : List Field) (app_name : String) :
    CtorOutcome FieldsActionState :=
  AddUnique.mk model fields app_name

/-- Source `AddIndex.__init__` (inherited unchanged by `DeleteIndex` and
`UpdateIndex`). -/
def AddIndex.mk (model : Model) (fields : List Field) (app_name : String) :
    CtorOutcome FieldsActionState :=
  match mkModelInfo app_name model with
  | .error e => .exc e
  | .ok info => .ok ⟨info, fields⟩

/-- Source `DeleteIndex` constructor: inherited from `AddIndex`. -/
def DeleteIndex.mk (model : Model) (fields : List Field) (app_name : String) :
    CtorOutcome FieldsActionState :=
  AddIndex.mk model fields app_name

/-- Source `UpdateIndex` constructor: inherited from `AddIndex`. -/
def UpdateIndex.mk (model : Model) (fields : List Field) (app_name : String) :
    CtorOutcome FieldsActionState :=
  AddIndex.mk model fields app_name

/-- A constructed instance of one of the ten concrete action classes. -/
inductive ConcreteAction
  | addModel (st : AddModelState)
  | deleteModel (st : AddModelState)
  | addField (st : AddFieldState)
  | deleteField (st : AddFieldState)
  | changeField (st : ChangeFieldState)
  | addUnique (st : FieldsActionState)
  | deleteUnique (st : FieldsActionState)
  | addIndex (st : FieldsActionState)
  | deleteIndex (st : FieldsActionState)
  | updateIndex (st : FieldsActionState)
deriving DecidableEq, Repr

/-- The `prepend_forwards` class attribute under Python attribute lookup:
`False` on `Action`, overridden to `True` only on `DeleteUnique`. -/
def prepend_forwards : ConcreteAction → Bool
  | .deleteUnique _ => true
  | _ => false

/-- The `prepend_backwards` class attribute under Python attribute lookup:
`False` on `Action`, `True` on `AddUnique` and `AddIndex` (and therefore on
`DeleteIndex` and `UpdateIndex`, which inherit it from `AddIndex`), and back
to `False` on `DeleteUnique`. -/
def prepend_backwards : ConcreteAction → Bool
  | .addUnique _ => true
  | .addIndex _ => true
  | .deleteIndex _ => true
  | .updateIndex _ => true
  | _ => false

/-- Method dispatch for `console_line`: the base class `Action.console_line`
raises `NotImplementedError`; every concrete class overrides it, so no case
falls through to the base. -/
def Action.console_line : ConcreteAction → Except String String
  | .addModel st => .ok (AddModel.console_line st)
  | .deleteModel st => .ok (DeleteModel.console_line st)
  | .addField st => .ok (AddField.console_line st)
  | .deleteField st => .ok (DeleteField.console_line st)
  | .changeField st => .ok (ChangeField.console_line st)
  | .addUnique st => .ok (AddUnique.console_line st)
  | .deleteUnique st => .ok (DeleteUnique.console_line st)
  | .addIndex st => .ok (AddIndex.console_line st)
  | .deleteIndex st => .ok (DeleteIndex.console_line st)
  | .updateIndex st => .ok (UpdateIndex.console_line st)

/-- Method dispatch for `forwards_code`: the base class raises
`NotImplementedError`; every concrete class overrides it. -/
def Action.forwards_code : ConcreteAction → Except String String
  | .addModel st => .ok (AddModel.forwards_code st)
  | .deleteModel st => .ok (DeleteModel.forwards_code st)
  | .addField st => .ok (AddField.forwards_code st)
  | .deleteField st => .ok (DeleteField.forwards_code st)
  | .changeField st => .ok (ChangeField.forwards_code st)
  | .addUnique st => .ok (AddUnique.forwards_code st)
  | .deleteUnique st => .ok (DeleteUnique.forwards_code st)
  | .addIndex st => .ok (AddIndex.forwards_code st)
  | .deleteIndex st => .ok (DeleteIndex.forwards_code st)
  | .updateIndex st => .ok (UpdateIndex.forwards_code st)

/-- Method dispatch for `backwards_code`: the base class raises
`NotImplementedError`; every concrete class overrides it. -/
def Action.backwards_code : ConcreteAction → Except String String
  | .addModel st => .ok (AddModel.backwards_code st)
  | .deleteModel st => .ok (DeleteModel.backwards_code st)
  | .addField st => .ok (AddField.backwards_code st)
  | .deleteField st => .ok (DeleteField.backwards_code st)
  | .changeField st => .ok (ChangeField.backwards_code st)
  | .addUnique st => .ok (AddUnique.backwards_code st)
  | .deleteUnique st => .ok (DeleteUnique.backwards_code st)
  | .addIndex st => .ok (AddIndex.backwards_code st)
  | .deleteIndex st => .ok (DeleteIndex.backwards_code st)
  | .updateIndex st => .ok (UpdateIndex.backwards_code st)

/-- Source `Action.add_forwards`: `forwards.insert(0, self.forwards_code())`
when `self.prepend_forwards`, else `forwards.append(self.forwards_code())`. -/
def Action.add_forwards (a : ConcreteAction) (forwards : List String) :
    Except String (List String) :=
  match Action.forwards_code a with
  | .error e => .error e
  | .ok c => if prepend_forwards a then .ok (c :: forwards) else .ok (forwards ++ [c])

/-- Source `Action.add_backwards`: `backwards.insert(0, self.backwards_code())`
when `self.prepend_backwards`, else `backwards.append(self.backwards_code())`. -/
def Action.add_backwards (a : ConcreteAction) (backwards : List String) :
    Except String (List String) :=
  match Action.backwards_code a with
  | .error e => .error e
  | .ok c => if prepend_backwards a then .ok (c :: backwards) else .ok (backwards ++ [c])

/-- Claim C1: the claim states that `AddField.__init__` invokes
`deal_with_not_null_no_default` exactly when the field is required and has no
default. The source checks `not is_required and not default`, contradicting
its own comment ("See if they've made property required but also have no
default") and the dialog text ("yet is NOT NULL"): a required field without a
default skips the dialog (construction succeeds at once even on dry stdin),
while a nullable field without a default triggers it (construction blocks on
dry stdin). -/
theorem addField_null_check_is_inverted :
    AddField.mk (fun _ => false) ⟨"Person", .vertex, "person", "person"⟩
        ⟨"age", "age", true, none, false, false⟩ ⟨"age", "Integer", []⟩ "app" [] =
      .ok ⟨⟨"app", "Person", "vertex", "person"⟩, ⟨"age", "age", true, none, false, false⟩,
        ⟨"age", "Integer", []⟩, false⟩ ∧
    AddField.mk (fun _ => false) ⟨"Person", .vertex, "person", "person"⟩
        ⟨"age", "age", false, none, false, false⟩ ⟨"age", "Integer", []⟩ "app" [] =
      .blocked :=
  ⟨rfl, rfl⟩

/-- Claim C3 (counterexample): the claim says every action other than
`AddUnique`, `AddIndex` and `DeleteUnique` appends on both sides, but
`DeleteIndex` inherits `prepend_backwards = True` from `AddIndex`, so its
`add_backwards` inserts at index 0 instead of appending. -/
theorem deleteIndex_add_backwards_prepends :
    Action.add_backwards
        (.deleteIndex ⟨⟨"app", "M", "vertex", "m"⟩, [⟨"f", "fc", true, none, false, false⟩]⟩)
        ["x"] ≠
      .ok (["x"] ++
        [DeleteIndex.backwards_code
          ⟨⟨"app", "M", "vertex", "m"⟩, [⟨"f", "fc", true, none, false, false⟩]⟩]) := by
  intro h
  simp only [Action.add_backwards, Action.backwards_code, prepend_backwards,
    if_pos rfl] at h
  injection h with h
  have := List.head_eq_of_cons_eq h
  revert this
  decide

/-- Claim C3 (amended): `add_forwards` appends `forwards_code()` unless
`prepend_forwards` is set, in which case it inserts at index 0, and
`add_backwards` behaves symmetrically with `prepend_backwards`;
`prepend_forwards` is set exactly on `DeleteUnique`, and `prepend_backwards`
exactly on `AddUnique`, `AddIndex`, `DeleteIndex` and `UpdateIndex` (the last
two inherit it from `AddIndex`); every other action appends on both sides. -/
theorem serialization_into_operation_lists (a : ConcreteAction) (l : List String) :
    Action.add_forwards a l =
      (Action.forwards_code a).map (fun c => if prepend_forwards a then c :: l else l ++ [c]) ∧
    Action.add_backwards a l =
      (Action.backwards_code a).map (fun c => if prepend_backwards a then c :: l else l ++ [c]) ∧
    (prepend_forwards a = true ↔ ∃ st, a = .deleteUnique st) ∧
    (prepend_backwards a = true ↔
      ((∃ st, a = .addUnique st) ∨ (∃ st, a = .addIndex st) ∨
        (∃ st, a = .deleteIndex st) ∨ (∃ st, a = .updateIndex st))) := by
  refine ⟨?_, ?_, ?_, ?_⟩ <;> cases a <;>
    simp [Action.add_forwards, Action.add_backwards, Action.forwards_code,
      Action.backwards_code, prepend_forwards, prepend_backwards, Except.map]

/-- Claim C4: the delete actions swap the code fragments of their add
counterparts: `DeleteModel.forwards_code` is `AddModel.backwards_code` on the
same state and vice versa, and likewise for `DeleteUnique` / `AddUnique` and
`DeleteIndex` / `AddIndex`. -/
theorem delete_actions_swap_forwards_backwards (ms : AddModelState)
    (us ixs : FieldsActionState) :
    DeleteModel.forwards_code ms = AddModel.backwards_code ms ∧
    DeleteModel.backwards_code ms = AddModel.forwards_code ms ∧
    DeleteUnique.forwards_code us = AddUnique.backwards_code us ∧
    DeleteUnique.backwards_code us = AddUnique.forwards_code us ∧
    DeleteIndex.forwards_code ixs = AddIndex.backwards_code ixs ∧
    DeleteIndex.backwards_code ixs = AddIndex.forwards_code ixs :=
  ⟨rfl, rfl, rfl, rfl, rfl, rfl⟩

/-- Claim C5: every constructed concrete action answers all three methods:
`console_line`, `forwards_code` and `backwards_code` each resolve to a
concrete override returning a string, never to the base class's
`NotImplementedError`. -/
theorem concrete_actions_produce_all_outputs (a : ConcreteAction) :
    (∃ s, Action.console_line a = .ok s) ∧
    (∃ s, Action.forwards_code a = .ok s) ∧
    (∃ s, Action.backwards_code a = .ok s) := by
  cases a <;> exact ⟨⟨_, rfl⟩, ⟨_, rfl⟩, ⟨_, rfl⟩⟩

/-- Claim C10: `UpdateIndex` renders `UPDATE_TEMPLATE` with the same
substitutions in both directions, so its forward and backward fragments are
identical. -/
theorem updateIndex_forwards_eq_backwards (st : FieldsActionState) :
    UpdateIndex.forwards_code st = UpdateIndex.backwards_code st :=
  rfl

lemma choiceLoop_broke_accepted (issue : Bool) :
    ∀ (stdin : List String) (c : String) (rest : List String),
      choiceLoop issue stdin = some (.broke c, rest) → c = "2" ∨ (c = "3" ∧ issue = true) := by
  intro stdin
  induction stdin with
  | nil => intro c rest h; simp [choiceLoop] at h
  | cons x xs ih =>
    intro c rest h
    by_cases h1 : x = "1"
    · simp [choiceLoop, h1] at h
    · by_cases h2 : x = "2"
      · simp [choiceLoop, h1, h2] at h
        exact Or.inl h.1.symm
      · by_cases h3 : x = "3" ∧ issue = true
        · simp [choiceLoop, h1, h2, h3.1, h3.2] at h
          exact Or.inr ⟨h.1.symm, h3.2⟩
        · have hsplit : ((decide (x = "3")) && issue) = false := by
            by_cases hx : x = "3"
            · have hi : issue = false := by
                cases hi2 : issue
                · rfl
                · exact absurd ⟨hx, hi2⟩ h3
              simp [hi]
            · simp [hx]
          rw [choiceLoop, if_neg h1, if_neg h2, hsplit] at h
          exact ih c rest (by simpa using h)

/-- Claim C2: the decision tree of `deal_with_not_null_no_default`. A blank
`String`/`Text` field gets `field_def[2]['default'] = repr("")` and the call
returns without reading any input; otherwise the choice loop accepts only
`"1"` (the process exits with status 1), `"2"` (a one-off default is requested
via `add_one_time_default`) and `"3"` only when
`issue_with_backward_migration` is set (the `irreversible` flag becomes true);
every other input re-prompts. -/
theorem deal_with_decision_tree (evalRaises : String → Bool) (issue : Bool)
    (f : Field) (fd : FieldDef) (stdin : List String) :
    (f.isStringOrText = true → f.blank = true →
      deal_with_not_null_no_default evalRaises issue f fd stdin =
        .ok { fd with kwargs := setKwarg fd.kwargs "default" "''" } false stdin) ∧
    ((f.isStringOrText && f.blank) = false →
      (∀ rest, choiceLoop issue stdin = some (.exit1, rest) →
        deal_with_not_null_no_default evalRaises issue f fd stdin = .exited) ∧
      (∀ rest, choiceLoop issue stdin = some (.broke "2", rest) →
        ((add_one_time_default evalRaises fd rest = none →
            deal_with_not_null_no_default evalRaises issue f fd stdin = .blocked) ∧
          (∀ fdx rest2, add_one_time_default evalRaises fd rest = some (.exit1, fdx, rest2) →
            deal_with_not_null_no_default evalRaises issue f fd stdin = .exited) ∧
          (∀ fd2 rest2, add_one_time_default evalRaises fd rest = some (.done, fd2, rest2) →
            deal_with_not_null_no_default evalRaises issue f fd stdin = .ok fd2 false rest2))) ∧
      (∀ rest, choiceLoop issue stdin = some (.broke "3", rest) →
        deal_with_not_null_no_default evalRaises issue f fd stdin = .ok fd true rest) ∧
      (∀ c rest, choiceLoop issue stdin = some (.broke c, rest) →
        c = "2" ∨ (c = "3" ∧ issue = true))) ∧
    (∀ c rest, choiceLoop issue (c :: rest) =
      if c = "1" then some (.exit1, rest)
      else if c = "2" then some (.broke c, rest)
      else if c = "3" ∧ issue = true then some (.broke c, rest)
      else choiceLoop issue rest) := by
  refine ⟨?_, ?_, ?_⟩
  · intro h1 h2
    simp [deal_with_not_null_no_default, h1, h2, FieldDef.setDefaultEmpty, pyReprStr]
  · intro hb
    refine ⟨?_, ?_, ?_, ?_⟩
    · intro rest hc
      simp [deal_with_not_null_no_default, hb, hc]
    · intro rest hc
      refine ⟨?_, ?_, ?_⟩
      · intro ha
        simp [deal_with_not_null_no_default, hb, hc, ha]
      · intro fdx rest2 ha
        simp [deal_with_not_null_no_default, hb, hc, ha]
      · intro fd2 rest2 ha
        simp [deal_with_not_null_no_default, hb, hc, ha]
    · intro rest hc
      simp [deal_with_not_null_no_default, hb, hc]
    · exact fun c rest hc => choiceLoop_broke_accepted issue stdin c rest hc
  · intro c rest
    by_cases h1 : c = "1"
    · simp [choiceLoop, h1]
    · by_cases h2 : c = "2"
      · simp [choiceLoop, h1, h2]
      · by_cases h3 : c = "3"
        · rcases Bool.eq_false_or_eq_true issue with hi | hi
          · simp [choiceLoop, h1, h2, h3, hi]
          · simp [choiceLoop, h1, h2, h3, hi]
        · simp [choiceLoop, h1, h2, h3]

/-- Witness for claim C2: a blank `String` field with an arbitrary stdin line
pending gets the empty-string default written into its definition and no input
is consumed. -/
theorem deal_with_decision_tree_witness :
    deal_with_not_null_no_default (fun _ => false) false
        ⟨"name", "name", false, none, true, true⟩ ⟨"name", "String", []⟩ ["junk"] =
      .ok ⟨"name", "String", [("default", "''")]⟩ false ["junk"] :=
  (deal_with_decision_tree (fun _ => false) false
    ⟨"name", "name", false, none, true, true⟩ ⟨"name", "String", []⟩ ["junk"]).1 rfl rfl

/-- Claim C7: when the `irreversible` flag was set during conflict resolution,
`DeleteField.backwards_code` and `ChangeField.backwards_code` prepend the
`IRREVERSIBLE_TEMPLATE` fragment (whose text raises `RuntimeError`) to the
normal restore code; when it is unset they return the restore code alone. -/
theorem irreversible_rollback_marking (st : AddFieldState) (cst : ChangeFieldState) :
    (st.irreversible = false →
      DeleteField.backwards_code st = AddField.forwards_code st) ∧
    (st.irreversible = true →
      DeleteField.backwards_code st =
        irreversable_code st.info st.field ++ AddField.forwards_code st) ∧
    (cst.irreversible = false →
      ChangeField.backwards_code cst =
        ChangeField._code cst cst.new_field cst.old_field cst.old_def) ∧
    (cst.irreversible = true →
      ChangeField.backwards_code cst =
        irreversable_code cst.info cst.old_field ++
          ChangeField._code cst cst.new_field cst.old_field cst.old_def) := by
  refine ⟨fun h => ?_, fun h => ?_, fun h => ?_, fun h => ?_⟩ <;>
    simp [DeleteField.backwards_code, ChangeField.backwards_code, h]

/-- Witness for claim C7: a concrete `DeleteField` state with the flag set
yields the irreversible fragment prepended to the restore code. -/
theorem irreversible_rollback_marking_witness :
    DeleteField.backwards_code
        ⟨⟨"app", "M", "vertex", "m"⟩, ⟨"f", "fc", true, none, false, false⟩,
          ⟨"f", "Text", []⟩, true⟩ =
      irreversable_code ⟨"app", "M", "vertex", "m"⟩ ⟨"f", "fc", true, none, false, false⟩ ++
        AddField.forwards_code
          ⟨⟨"app", "M", "vertex", "m"⟩, ⟨"f", "fc", true, none, false, false⟩,
            ⟨"f", "Text", []⟩, true⟩ :=
  (irreversible_rollback_marking
    ⟨⟨"app", "M", "vertex", "m"⟩, ⟨"f", "fc", true, none, false, false⟩,
      ⟨"f", "Text", []⟩, true⟩
    ⟨⟨"", "", "", ""⟩, ⟨"", "", false, none, false, false⟩,
      ⟨"", "", false, none, false, false⟩, ⟨"", "", []⟩, ⟨"", "", []⟩, false⟩).2.1 rfl

/-- Claim C8: `ChangeField` code generation. The forwards code consists of the
`db.rename_property` fragment exactly when the old and new columns differ, and
that fragment precedes the `db.alter_property` fragment built from the new
field definition; the backward construction `_code(new_field, old_field,
old_def)` (which `backwards_code` returns, prefixed per the `irreversible`
flag) is the same with the roles of the old and new field swapped. -/
theorem changeField_rename_precedes_alter (st : ChangeFieldState) :
    (st.old_field.column ≠ st.new_field.column →
      ChangeField.forwards_code st =
        ChangeField.rename_code st st.old_field st.new_field ++
          ChangeField.alter_code st st.new_field st.new_def ∧
      ChangeField._code st st.new_field st.old_field st.old_def =
        ChangeField.rename_code st st.new_field st.old_field ++
          ChangeField.alter_code st st.old_field st.old_def) ∧
    (st.old_field.column = st.new_field.column →
      ChangeField.forwards_code st = ChangeField.alter_code st st.new_field st.new_def ∧
      ChangeField._code st st.new_field st.old_field st.old_def =
        ChangeField.alter_code st st.old_field st.old_def) ∧
    (st.irreversible = false →
      ChangeField.backwards_code st =
        ChangeField._code st st.new_field st.old_field st.old_def) := by
  refine ⟨fun h => ⟨?_, ?_⟩, fun h => ⟨?_, ?_⟩, fun h => ?_⟩ <;>
    simp [ChangeField.forwards_code, ChangeField.backwards_code, ChangeField._code, h]

/-- Witness for claim C8: with differing columns the forwards code is the
rename fragment followed by the alter fragment. -/
theorem changeField_rename_precedes_alter_witness :
    ChangeField.forwards_code
        ⟨⟨"app", "M", "vertex", "m"⟩, ⟨"old", "oc", true, none, false, false⟩,
          ⟨"new", "nc", true, none, false, false⟩, ⟨"o", "T", []⟩, ⟨"n", "T", []⟩, false⟩ =
      ChangeField.rename_code
          ⟨⟨"app", "M", "vertex", "m"⟩, ⟨"old", "oc", true, none, false, false⟩,
            ⟨"new", "nc", true, none, false, false⟩, ⟨"o", "T", []⟩, ⟨"n", "T", []⟩, false⟩
          ⟨"old", "oc", true, none, false, false⟩ ⟨"new", "nc", true, none, false, false⟩ ++
        ChangeField.alter_code
          ⟨⟨"app", "M", "vertex", "m"⟩, ⟨"old", "oc", true, none, false, false⟩,
            ⟨"new", "nc", true, none, false, false⟩, ⟨"o", "T", []⟩, ⟨"n", "T", []⟩, false⟩
          ⟨"new", "nc", true, none, false, false⟩ ⟨"n", "T", []⟩ :=
  ((changeField_rename_precedes_alter
    ⟨⟨"app", "M", "vertex", "m"⟩, ⟨"old", "oc", true, none, false, false⟩,
      ⟨"new", "nc", true, none, false, false⟩, ⟨"o", "T", []⟩, ⟨"n", "T", []⟩, false⟩).1
    (by decide)).1

/-- Claim C9: `add_one_time_default` evaluates the entered code but discards
the result: whenever the loop ends by accepting a syntactically valid line,
the field definition handed back is exactly the one received (the write into
`field_def` is commented out in the source). -/
theorem add_one_time_default_discards_value (evalRaises : String → Bool) (fd : FieldDef)
    (stdin : List String) (fd2 : FieldDef) (rest : List String) :
    add_one_time_default evalRaises fd stdin = some (.done, fd2, rest) → fd2 = fd := by
  intro h
  cases hl : oneTimeLoop evalRaises stdin with
  | none =>
    unfold add_one_time_default at h
    rw [hl] at h
    simp at h
  | some v =>
    obtain ⟨r1, rrest⟩ := v
    unfold add_one_time_default at h
    rw [hl] at h
    simp at h
    exact h.2.1.symm

/-- Witness for claim C9: entering `42` (which evaluates fine) leaves a
concrete field definition untouched. -/
theorem add_one_time_default_discards_value_witness :
    add_one_time_default (fun _ => false) ⟨"f", "T", [("x", "1")]⟩ ["42"] =
      some (.done, ⟨"f", "T", [("x", "1")]⟩, []) ∧
    (⟨"f", "T", [("x", "1")]⟩ : FieldDef) = ⟨"f", "T", [("x", "1")]⟩ :=
  ⟨rfl, add_one_time_default_discards_value (fun _ => false) ⟨"f", "T", [("x", "1")]⟩
    ["42"] ⟨"f", "T", [("x", "1")]⟩ [] rfl⟩

lemma addModel_mk_info {m : Model} {md : List (String × FieldDef)} {app : String}
    {st : AddModelState} (h : AddModel.mk m md app = .ok st) :
    mkModelInfo app m = .ok st.info := by
  unfold AddModel.mk at h
  cases hm : mkModelInfo app m with
  | error e => rw [hm] at h; exact CtorOutcome.noConfusion h
  | ok info =>
    rw [hm] at h
    injection h with h
    rw [← h]

lemma addFieldGeneric_mk_info {issue : Bool} {ev : String → Bool} {m : Model} {f : Field}
    {fd : FieldDef} {app : String} {stdin : List String} {st : AddFieldState}
    (h : AddField.mkGeneric issue ev m f fd app stdin = .ok st) :
    mkModelInfo app m = .ok st.info := by
  unfold AddField.mkGeneric at h
  split at h
  · exact CtorOutcome.noConfusion h
  · rename_i info heq
    rw [heq]
    split at h
    · split at h
      · exact CtorOutcome.noConfusion h
      · exact CtorOutcome.noConfusion h
      · injection h with h
        rw [← h]
    · injection h with h
      rw [← h]

lemma changeFieldSecond_info {ev : String → Bool} {info : ModelInfo} {oldf newf : Field}
    {odf nd : FieldDef} {irr : Bool} {rest : List String} {st : ChangeFieldState}
    (h : ChangeField.mkSecond ev info oldf newf odf nd irr rest = .ok st) :
    st.info = info := by
  unfold ChangeField.mkSecond at h
  split at h
  · split at h
    · exact CtorOutcome.noConfusion h
    · exact CtorOutcome.noConfusion h
    · injection h with h
      rw [← h]
  · injection h with h
    rw [← h]

lemma changeField_mk_info {ev : String → Bool} {m : Model} {oldf newf : Field}
    {odf ndf : FieldDef} {app : String} {stdin : List String} {st : ChangeFieldState}
    (h : ChangeField.mk ev m oldf newf odf ndf app stdin = .ok st) :
    mkModelInfo app m = .ok st.info := by
  unfold ChangeField.mk at h
  split at h
  · exact CtorOutcome.noConfusion h
  · rename_i info heq
    rw [heq]
    split at h
    · split at h
      · exact CtorOutcome.noConfusion h
      · exact CtorOutcome.noConfusion h
      · rw [changeFieldSecond_info h]
    · rw [changeFieldSecond_info h]

lemma addUnique_mk_info {m : Model} {flds : List Field} {app : String}
    {st : FieldsActionState} (h : AddUnique.mk m flds app = .ok st) :
    mkModelInfo app m = .ok st.info := by
  unfold AddUnique.mk at h
  cases hm : mkModelInfo app m with
  | error e => rw [hm] at h; exact CtorOutcome.noConfusion h
  | ok info =>
    rw [hm] at h
    injection h with h
    rw [← h]

lemma addIndex_mk_info {m : Model} {flds : List Field} {app : String}
    {st : FieldsActionState} (h : AddIndex.mk m flds app = .ok st) :
    mkModelInfo app m = .ok st.info := by
  unfold AddIndex.mk at h
  cases hm : mkModelInfo app m with
  | error e => rw [hm] at h; exact CtorOutcome.noConfusion h
  | ok info =>
    rw [hm] at h
    injection h with h
    rw [← h]

lemma info_fields {app : String} {m : Model} {i : ModelInfo} {t n : String}
    (hm : mkModelInfo app m = .ok ⟨app, m.name, t, n⟩)
    (hi : mkModelInfo app m = .ok i) : i.model_type = t ∧ i.model_name = n := by
  rw [hm] at hi
  injection hi with hi
  rw [← hi]
  exact ⟨rfl, rfl⟩

/-- Claim C6: constructing any of the ten actions with a model class that is a
subclass of neither `Vertex` nor `Edge` raises `MogwaiMigrationException`; for
a `Vertex` subclass every successfully constructed action has
`model_type = 'vertex'` and `model_name = get_element_type()`, and for an
`Edge` subclass `model_type = 'edge'` and `model_name = get_label()`. -/
theorem action_ctor_model_resolution (app : String) (m : Model)
    (md : List (String × FieldDef)) (flds : List Field) (f oldf newf : Field)
    (fd odf ndf : FieldDef) (ev : String → Bool) (stdin : List String) :
    (m.kind = .other →
      (∃ e, AddModel.mk m md app = .exc e) ∧ (∃ e, DeleteModel.mk m md app = .exc e) ∧
      (∃ e, AddField.mk ev m f fd app stdin = .exc e) ∧
      (∃ e, DeleteField.mk ev m f fd app stdin = .exc e) ∧
      (∃ e, ChangeField.mk ev m oldf newf odf ndf app stdin = .exc e) ∧
      (∃ e, AddUnique.mk m flds app = .exc e) ∧ (∃ e, DeleteUnique.mk m flds app = .exc e) ∧
      (∃ e, AddIndex.mk m flds app = .exc e) ∧ (∃ e, DeleteIndex.mk m flds app = .exc e) ∧
      (∃ e, UpdateIndex.mk m flds app = .exc e)) ∧
    (m.kind = .vertex →
      mkModelInfo app m = .ok ⟨app, m.name, "vertex", m.element_type⟩ ∧
      (∀ st, AddModel.mk m md app = .ok st →
        st.info.model_type = "vertex" ∧ st.info.model_name = m.element_type) ∧
      (∀ st, DeleteModel.mk m md app = .ok st →
        st.info.model_type = "vertex" ∧ st.info.model_name = m.element_type) ∧
      (∀ st, AddField.mk ev m f fd app stdin = .ok st →
        st.info.model_type = "vertex" ∧ st.info.model_name = m.element_type) ∧
      (∀ st, DeleteField.mk ev m f fd app stdin = .ok st →
        st.info.model_type = "vertex" ∧ st.info.model_name = m.element_type) ∧
      (∀ st, ChangeField.mk ev m oldf newf odf ndf app stdin = .ok st →
        st.info.model_type = "vertex" ∧ st.info.model_name = m.element_type) ∧
      (∀ st, AddUnique.mk m flds app = .ok st →
        st.info.model_type = "vertex" ∧ st.info.model_name = m.element_type) ∧
      (∀ st, DeleteUnique.mk m flds app = .ok st →
        st.info.model_type = "vertex" ∧ st.info.model_name = m.element_type) ∧
      (∀ st, AddIndex.mk m flds app = .ok st →
        st.info.model_type = "vertex" ∧ st.info.model_name = m.element_type) ∧
      (∀ st, DeleteIndex.mk m flds app = .ok st →
        st.info.model_type = "vertex" ∧ st.info.model_name = m.element_type) ∧
      (∀ st, UpdateIndex.mk m flds app = .ok st →
        st.info.model_type = "vertex" ∧ st.info.model_name = m.element_type)) ∧
    (m.kind = .edge →
      mkModelInfo app m = .ok ⟨app, m.name, "edge", m.label⟩ ∧
      (∀ st, AddModel.mk m md app = .ok st →
        st.info.model_type = "edge" ∧ st.info.model_name = m.label) ∧
      (∀ st, DeleteModel.mk m md app = .ok st →
        st.info.model_type = "edge" ∧ st.info.model_name = m.label) ∧
      (∀ st, AddField.mk ev m f fd app stdin = .ok st →
        st.info.model_type = "edge" ∧ st.info.model_name = m.label) ∧
      (∀ st, DeleteField.mk ev m f fd app stdin = .ok st →
        st.info.model_type = "edge" ∧ st.info.model_name = m.label) ∧
      (∀ st, ChangeField.mk ev m oldf newf odf ndf app stdin = .ok st →
        st.info.model_type = "edge" ∧ st.info.model_name = m.label) ∧
      (∀ st, AddUnique.mk m flds app = .ok st →
        st.info.model_type = "edge" ∧ st.info.model_name = m.label) ∧
      (∀ st, DeleteUnique.mk m flds app = .ok st →
        st.info.model_type = "edge" ∧ st.info.model_name = m.label) ∧
      (∀ st, AddIndex.mk m flds app = .ok st →
        st.info.model_type = "edge" ∧ st.info.model_name = m.label) ∧
      (∀ st, DeleteIndex.mk m flds app = .ok st →
        st.info.model_type = "edge" ∧ st.info.model_name = m.label) ∧
      (∀ st, UpdateIndex.mk m flds app = .ok st →
        st.info.model_type = "edge" ∧ st.info.model_name = m.label)) := by
  refine ⟨fun ho => ?_, fun hv => ?_, fun he => ?_⟩
  · have hm : mkModelInfo app m = .error (m.name ++ " is Not a Vertex or Edge") := by
      unfold mkModelInfo; rw [ho]
    refine ⟨⟨m.name ++ " is Not a Vertex or Edge", ?_⟩,
      ⟨m.name ++ " is Not a Vertex or Edge", ?_⟩,
      ⟨m.name ++ " is Not a Vertex or Edge", ?_⟩,
      ⟨m.name ++ " is Not a Vertex or Edge", ?_⟩,
      ⟨m.name ++ " is Not a Vertex or Edge", ?_⟩,
      ⟨m.name ++ " is Not a Vertex or Edge", ?_⟩,
      ⟨m.name ++ " is Not a Vertex or Edge", ?_⟩,
      ⟨m.name ++ " is Not a Vertex or Edge", ?_⟩,
      ⟨m.name ++ " is Not a Vertex or Edge", ?_⟩,
      ⟨m.name ++ " is Not a Vertex or Edge", ?_⟩⟩
    · unfold AddModel.mk; rw [hm]
    · unfold DeleteModel.mk AddModel.mk; rw [hm]
    · unfold AddField.mk AddField.mkGeneric; rw [hm]
    · unfold DeleteField.mk AddField.mkGeneric; rw [hm]
    · unfold ChangeField.mk; rw [hm]
    · unfold AddUnique.mk; rw [hm]
    · unfold DeleteUnique.mk AddUnique.mk; rw [hm]
    · unfold AddIndex.mk; rw [hm]
    · unfold DeleteIndex.mk AddIndex.mk; rw [hm]
    · unfold UpdateIndex.mk AddIndex.mk; rw [hm]
  · have hm : mkModelInfo app m = .ok ⟨app, m.name, "vertex", m.element_type⟩ := by
      unfold mkModelInfo; rw [hv]
    refine ⟨hm, fun st h => ?_, fun st h => ?_, fun st h => ?_, fun st h => ?_,
      fun st h => ?_, fun st h => ?_, fun st h => ?_, fun st h => ?_, fun st h => ?_,
      fun st h => ?_⟩
    · exact info_fields hm (addModel_mk_info h)
    · unfold DeleteModel.mk at h; exact info_fields hm (addModel_mk_info h)
    · unfold AddField.mk at h; exact info_fields hm (addFieldGeneric_mk_info h)
    · unfold DeleteField.mk at h; exact info_fields hm (addFieldGeneric_mk_info h)
    · exact info_fields hm (changeField_mk_info h)
    · exact info_fields hm (addUnique_mk_info h)
    · unfold DeleteUnique.mk at h; exact info_fields hm (addUnique_mk_info h)
    · exact info_fields hm (addIndex_mk_info h)
    · unfold DeleteIndex.mk at h; exact info_fields hm (addIndex_mk_info h)
    · unfold UpdateIndex.mk at h; exact info_fields hm (addIndex_mk_info h)
  · have hm : mkModelInfo app m = .ok ⟨app, m.name, "edge", m.label⟩ := by
      unfold mkModelInfo; rw [he]
    refine ⟨hm, fun st h => ?_, fun st h => ?_, fun st h => ?_, fun st h => ?_,
      fun st h => ?_, fun st h => ?_, fun st h => ?_, fun st h => ?_, fun st h => ?_,
      fun st h => ?_⟩
    · exact info_fields hm (addModel_mk_info h)
    · unfold DeleteModel.mk at h; exact info_fields hm (addModel_mk_info h)
    · unfold AddField.mk at h; exact info_fields hm (addFieldGeneric_mk_info h)
    · unfold DeleteField.mk at h; exact info_fields hm (addFieldGeneric_mk_info h)
    · exact info_fields hm (changeField_mk_info h)
    · exact info_fields hm (addUnique_mk_info h)
    · unfold DeleteUnique.mk at h; exact info_fields hm (addUnique_mk_info h)
    · exact info_fields hm (addIndex_mk_info h)
    · unfold DeleteIndex.mk at h; exact info_fields hm (addIndex_mk_info h)
    · unfold UpdateIndex.mk at h; exact info_fields hm (addIndex_mk_info h)

/-- Witness for claim C6: a model deriving from neither base makes `AddModel`
raise, and a `Vertex` subclass resolves to `model_type = 'vertex'` with the
element type as model name. -/
theorem action_ctor_model_resolution_witness :
    (∃ e, AddModel.mk ⟨"Foo", .other, "", ""⟩ [] "app" = .exc e) ∧
    mkModelInfo "app" ⟨"Bar", .vertex, "bar_et", "bar_lbl"⟩ =
      .ok ⟨"app", "Bar", "vertex", "bar_et"⟩ :=
  ⟨((action_ctor_model_resolution "app" ⟨"Foo", .other, "", ""⟩ [] []
      ⟨"", "", false, none, false, false⟩ ⟨"", "", false, none, false, false⟩
      ⟨"", "", false, none, false, false⟩ ⟨"", "", []⟩ ⟨"", "", []⟩ ⟨"", "", []⟩
      (fun _ => false) []).1 rfl).1,
    ((action_ctor_model_resolution "app" ⟨"Bar", .vertex, "bar_et", "bar_lbl"⟩ [] []
      ⟨"", "", false, none, false, false⟩ ⟨"", "", false, none, false, false⟩
      ⟨"", "", false, none, false, false⟩ ⟨"", "", []⟩ ⟨"", "", []⟩ ⟨"", "", []⟩
      (fun _ => false) []).2.1 rfl).1⟩

end Mogwai





